import Mathlib

/-!
Verification of the gliderpy fetchers module (`gliderpy/fetchers.py`).

The module is a thin wrapper over an ERDDAP client: `standardise_df`
normalises a fetched table, `GliderDataFetcher.query` discovers a dataset
catalog for geographic/time bounds, `GliderDataFetcher.to_pandas` fetches
and concatenates per-dataset tables, and `DatasetList.get_ids` lists the
dataset ids of the one supported server.

The embedding below mirrors the Python source.  Pandas dataframes are
modelled as a structure of an index name, a column-name list and a row
list; the network (catalog search, per-dataset fetch, URL construction)
is passed in as explicit oracle arguments, so theorems quantify over every
possible server response.  Python exceptions become an `Except PyError`
result; in particular, evaluating a pandas dataframe as a boolean (the
source's `if not self.datasets:`) raises, which the model makes explicit.
-/

namespace Gliderpy

/-! ### Python string primitives used by the source -/

/-- Validity of the code point produced by lower-casing an ASCII upper-case
letter: `n ≤ 90` keeps `n + 32` far below the surrogate range. -/
theorem lowerValid {n : Nat} (h : n ≤ 90) : (n + 32).isValidChar :=
  Or.inl (by omega)

/-- `str.lower` on one character (ASCII fragment): `A`–`Z` (code points 65–90)
shift by 32, everything else is unchanged. -/
def lowerChar (c : Char) : Char :=
  if h : 65 ≤ c.toNat ∧ c.toNat ≤ 90 then
    Char.ofNatAux (c.toNat + 32) (lowerValid h.2)
  else c

/-- `str.lower` on a whole string, character by character. -/
def lowerStr (s : String) : String := ⟨s.data.map lowerChar⟩

/-- `str.endswith(suffix)`. -/
def pyEndsWith (s suffix : String) : Bool :=
  suffix.data.isSuffixOf s.data

/-- Characters before the first `'?'`, i.e. Python's `s.split("?")[0]`. -/
def takeBeforeQm : List Char → List Char
  | [] => []
  | c :: cs => if c = '?' then [] else c :: takeBeforeQm cs

/-- `url.split("?")[0]`: the download URL with its query string stripped. -/
def stripQuery (s : String) : String := ⟨takeBeforeQm s.data⟩

/-! ### Dataframe model -/

/-- A pandas dataframe: an index name, column labels, and rows of cells
(cells are kept as plain strings; the source never computes on them). -/
structure DataFrame where
  indexName : String
  columns : List String
  rows : List (List String)
deriving DecidableEq

/-- Well-formedness of a dataframe: every row has one cell per column.
Every dataframe pandas can actually build satisfies this. -/
def DataFrame.wf (df : DataFrame) : Prop :=
  ∀ r ∈ df.rows, r.length = df.columns.length

instance (df : DataFrame) : Decidable df.wf := by
  unfold DataFrame.wf; infer_instance

/-- `df.rename(columns=dict(m))` on a single label: the first matching key
of the rename table wins, a label matching no key is left alone. -/
def renameCol (m : List (String × String)) (c : String) : String :=
  match m with
  | [] => c
  | (k, v) :: rest => if c = k then v else renameCol rest c

/-- The column-label transformation of `standardise_df`: lower-case every
label, then apply the rename table. -/
def normCols (m : List (String × String)) (cols : List String) : List String :=
  cols.map fun c => renameCol m (lowerStr c)

/-- `df[name] = v` with a scalar `v`: overwrite every column labelled
`name` if one exists, otherwise append a new column whose cells all
hold `v`. -/
def setColumn (df : DataFrame) (name v : String) : DataFrame :=
  if name ∈ df.columns then
    { df with rows := df.rows.map fun r =>
        (df.columns.zip r).map fun p => if p.1 = name then v else p.2 }
  else
    { df with columns := df.columns ++ [name],
              rows := df.rows.map fun r => r ++ [v] }

/-- The cells of row `r` lying in columns labelled `name` (pandas columns
need not be unique, so this is a list). -/
def colValues (cols : List String) (name : String) (r : List String) : List String :=
  ((cols.zip r).filter fun p => p.1 = name).map fun p => p.2

/-! ### `standardise_df`

Modelled from the spec: `server_parameter_rename`, defined in
`gliderpy/servers.py`, is not among the sources; per the spec it is the
static per-server rename table taking server-specific variable names to
their canonical (lower-case) forms, e.g. a server-specific
pressure/temperature/salinity variable name to the canonical name. -/
def server_parameter_rename : List (String × String) :=
  [("pres (decibar)", "pressure"),
   ("sci_water_temp (celsius)", "temperature"),
   ("sal (psu)", "salinity")]

/-- Modelled from the spec: `server_vars`, defined in
`gliderpy/servers.py`, is not among the sources; per the spec it is the
known-variables table keyed by server URL, listing for the supported
server the variables the plotting helpers read plus the time axis. -/
def server_vars : List (String × List String) :=
  [("https://gliders.ioos.us/erddap",
    ["latitude", "longitude", "pressure", "salinity", "temperature", "time"])]

/-- The body of `standardise_df(df, dataset_url)`.  Every step of the
source acts on `df` in place (`df.columns = ...`, the two `inplace=True`
renames, and the `df["dataset_url"] = dataset_url` assignment) and the
function returns that same object, so the call's observable outcome is a
pair: the returned table, and the argument object's contents after the
call — which coincide. -/
def standardise_df_run (m : List (String × String)) (df : DataFrame)
    (dataset_url : String) : DataFrame × DataFrame :=
  let df1 := { df with columns := df.columns.map lowerStr }
  let df2 := { df1 with columns := df1.columns.map (renameCol m) }
  let df3 := { df2 with indexName := "time" }
  let df4 := setColumn df3 "dataset_url" dataset_url
  (df4, df4)

/-- The value returned by `standardise_df(df, dataset_url)`. -/
def standardise_df (m : List (String × String)) (df : DataFrame)
    (dataset_url : String) : DataFrame :=
  (standardise_df_run m df dataset_url).1

/-- The contents of the caller's `df` object once `standardise_df`
returns. -/
def standardise_df_argAfter (m : List (String × String)) (df : DataFrame)
    (dataset_url : String) : DataFrame :=
  (standardise_df_run m df dataset_url).2

/-! ### Fetcher state and `query` -/

/-- One row of the catalog-search CSV response, restricted to the three
columns the source keeps (`Title`, `Institution`, `Dataset ID`). -/
structure SearchRow where
  title : String
  institution : String
  datasetID : String
deriving DecidableEq

/-- One row of the discovered dataset catalog (`self.datasets`): the three
kept search columns plus, when delayed datasets were filtered out, the
attached info-page URL. -/
structure CatalogRow where
  title : String
  institution : String
  datasetID : String
  info_url : Option String
deriving DecidableEq

/-- The discovered dataset catalog (`self.datasets` once set). -/
structure Catalog where
  rows : List CatalogRow
deriving DecidableEq

/-- The catalog's `"Dataset ID"` column, in order. -/
def Catalog.ids (c : Catalog) : List String :=
  c.rows.map fun r => r.datasetID

/-- The six user-supplied bounds of `query` (values are opaque scalars the
source only ever passes along, so they are kept as strings). -/
structure Bounds where
  min_lat : String
  max_lat : String
  min_lon : String
  max_lon : String
  min_time : String
  max_time : String
deriving DecidableEq

/-- The constraint mapping `query` stores on the fetcher, in the source's
insertion order. -/
def mkConstraints (b : Bounds) : List (String × String) :=
  [("time>=", b.min_time), ("time<=", b.max_time),
   ("latitude>=", b.min_lat), ("latitude<=", b.max_lat),
   ("longitude>=", b.min_lon), ("longitude<=", b.max_lon)]

/-- An HTTP failure raised by `urlopen` (an `httpx.HTTPError`). -/
inductive HttpError where
  | httpGetFailed (msg : String) : HttpError
deriving DecidableEq

/-- The exceptions the modelled code can raise. -/
inductive PyError where
  /-- pandas: evaluating a dataframe as a boolean raises
  `ValueError: the truth value of a DataFrame is ambiguous`. -/
  | truthValueAmbiguous : PyError
  /-- The wrapper raised around a failed catalog search, carrying the
  active constraint mapping interpolated into its message. -/
  | noDatasetsFound (constraints : List (String × String)) : PyError
  /-- A plain `ValueError` with its message. -/
  | valueError (msg : String) : PyError
  /-- A `KeyError` on a lookup miss. -/
  | keyError (key : String) : PyError
deriving DecidableEq

/-- The mutable state of a `GliderDataFetcher` together with the wrapped
erddapy `ERDDAP` object's fields the source reads and writes. -/
structure GliderDataFetcher where
  server : String
  /-- `self.fetcher.variables` (the word itself is reserved in Lean). -/
  vars : List String
  dataset_id : Option String
  constraints : Option (List (String × String))
  datasets : Option Catalog
  query_url : Option String
deriving DecidableEq

/-- `GliderDataFetcher.__init__`: looks the server up in `server_vars`
(a miss raises `KeyError`) and starts with no dataset id and no catalog. -/
def GliderDataFetcher.init (server : String) : Except PyError GliderDataFetcher :=
  match (server_vars.find? fun p => p.1 = server) with
  | some p => Except.ok
      { server := server, vars := p.2, dataset_id := none,
        constraints := none, datasets := none, query_url := none }
  | none => Except.error (PyError.keyError server)

/-- Python truthiness of an optional string: `None` and `""` are falsy. -/
def pyTruthyOptStr : Option String → Bool
  | none => false
  | some s => !(s == "")

/-- Python's `f"{x}"` for an optional string: `None` prints as `"None"`. -/
def pyReprOptStr : Option String → String
  | none => "None"
  | some s => s

/-- `not self.datasets`: `None` is falsy so the negation is true, but a
pandas dataframe has no truth value — evaluating it raises. -/
def pyNotDatasets : Option Catalog → Except PyError Bool
  | none => Except.ok true
  | some _ => Except.error PyError.truthValueAmbiguous

/-- `GliderDataFetcher.query(...)`.  Stores the constraint mapping, then —
when `not self.datasets` evaluates to true — performs the catalog search:
`search_url` is the URL erddapy builds for the bounds, `search_result` is
the outcome of `urlopen` + CSV parsing (an oracle for the network), and
`info_url` is erddapy's info-page URL builder.  An HTTP failure is
re-raised as `noDatasetsFound` carrying the just-stored constraints.
Unless `delayed` is set, ids ending in `"delayed"` are dropped and an
info URL is attached to each surviving row; the resulting catalog is
stored and returned. -/
def query (st : GliderDataFetcher) (b : Bounds) (delayed : Bool)
    (search_url : String) (search_result : Except HttpError (List SearchRow))
    (info_url : String → String) :
    Except PyError (GliderDataFetcher × Catalog) :=
  let st1 := { st with constraints := some (mkConstraints b) }
  match pyNotDatasets st1.datasets with
  | Except.error e => Except.error e
  | Except.ok true =>
    let st2 := { st1 with query_url := some search_url }
    match search_result with
    | Except.error _ => Except.error (PyError.noDatasetsFound (mkConstraints b))
    | Except.ok rows =>
      let cat : Catalog :=
        if delayed then
          ⟨rows.map fun r => ⟨r.title, r.institution, r.datasetID, none⟩⟩
        else
          ⟨(rows.filter fun r => !(pyEndsWith r.datasetID "delayed")).map
            fun r => ⟨r.title, r.institution, r.datasetID, some (info_url r.datasetID)⟩⟩
      Except.ok ({ st2 with datasets := some cat }, cat)
  | Except.ok false => Except.ok (st1, st1.datasets.getD ⟨[]⟩)

/-! ### `to_pandas` -/

/-- The column union pandas' outer-join concatenation produces: labels of
the first frame, then each later frame's labels not seen yet, in order. -/
def unionCols (ls : List (List String)) : List String :=
  ls.foldl (fun acc cs => acc ++ cs.filter fun c => !(acc.contains c)) []

/-- The cell of a row under column label `c`, `"NaN"` when the row's frame
has no such column. -/
def cellAt (cols : List String) (r : List String) (c : String) : String :=
  match cols.indexOf? c with
  | some i => r.getD i "NaN"
  | none => "NaN"

/-- A row re-expressed over the target label list, missing columns filled
with `"NaN"`. -/
def alignRow (cols : List String) (r : List String) (target : List String) :
    List String :=
  target.map (cellAt cols r)

/-- `pd.concat(dfs)`: raises on an empty list; otherwise stacks every
frame's rows in order over the outer-join column union. -/
def pdConcat : List DataFrame → Except PyError DataFrame
  | [] => Except.error (PyError.valueError "No objects to concatenate")
  | d :: rest =>
    let all := d :: rest
    let cols := unionCols (all.map fun t => t.columns)
    Except.ok
      { indexName := d.indexName, columns := cols,
        rows := (all.map fun t => t.rows.map fun r => alignRow t.columns r cols).flatten }

/-- The multi-dataset loop of `to_pandas`: for each catalog id in order,
store it as the active dataset id, fetch that dataset's table (`fetch`),
strip the query string off its download URL (`dl`), standardise, and
collect. -/
def fetchLoop (fetch : String → DataFrame) (dl : String → String) :
    GliderDataFetcher → List String → List DataFrame →
    GliderDataFetcher × List DataFrame
  | st, [], acc => (st, acc)
  | st, did :: rest, acc =>
    fetchLoop fetch dl { st with dataset_id := some did } rest
      (acc ++ [standardise_df server_parameter_rename (fetch did) (stripQuery (dl did))])

/-- `GliderDataFetcher.to_pandas()`.  `fetch` maps a dataset id to the
table the server returns for it and `dl` to its download URL (network
oracles).  A truthy dataset id selects the single-dataset branch; else a
present catalog selects the concatenation branch; else the call raises
the configuration `ValueError` (whose f-string interpolates the unset
dataset id). -/
def to_pandas (st : GliderDataFetcher) (fetch : String → DataFrame)
    (dl : String → String) : Except PyError (GliderDataFetcher × DataFrame) :=
  if pyTruthyOptStr st.dataset_id then
    let did := st.dataset_id.getD ""
    Except.ok (st, standardise_df server_parameter_rename (fetch did) (stripQuery (dl did)))
  else
    match st.datasets with
    | some cat =>
      let r := fetchLoop fetch dl st cat.ids []
      match pdConcat r.2 with
      | Except.ok big => Except.ok (r.1, big)
      | Except.error e => Except.error e
    | none =>
      Except.error (PyError.valueError
        ("Must provide a " ++ pyReprOptStr st.dataset_id ++
          " or `query` terms to download data."))

/-! ### `DatasetList` -/

/-- A `DatasetList`: the wrapped `ERDDAP` object's server plus the
`dataset_ids` attribute `get_ids` stores on success. -/
structure DatasetList where
  server : String
  dataset_ids : Option (List String)
deriving DecidableEq

/-- `DatasetList.get_ids()`.  `allDatasetsIDs` is the `datasetID` column
of the special `allDatasets` table the supported server returns (a network
oracle).  Only the IOOS glider DAC is supported; for it, Python's
`list.remove` drops the first `"allDatasets"` entry (raising a
`ValueError` when there is none); any other server raises the
unsupported-operation `ValueError` without touching the network. -/
def DatasetList.get_ids (d : DatasetList) (allDatasetsIDs : List String) :
    Except PyError (DatasetList × List String) :=
  if d.server = "https://gliders.ioos.us/erddap" then
    if "allDatasets" ∈ allDatasetsIDs then
      let ids := allDatasetsIDs.erase "allDatasets"
      Except.ok ({ d with dataset_ids := some ids }, ids)
    else
      Except.error (PyError.valueError "list.remove(x): x not in list")
  else
    Except.error (PyError.valueError
      ("The " ++ d.server ++ " does not supported this operation."))

/-- The catalog `query` builds when `delayed` is false: delayed-mode ids
dropped, an info URL attached to each surviving row. -/
def filteredCatalog (rows : List SearchRow) (iu : String → String) : Catalog :=
  ⟨(rows.filter fun r => !(pyEndsWith r.datasetID "delayed")).map
    fun r => ⟨r.title, r.institution, r.datasetID, some (iu r.datasetID)⟩⟩

/-- The catalog `query` builds when `delayed` is true: every response row
kept, no info URL column. -/
def retainedCatalog (rows : List SearchRow) : Catalog :=
  ⟨rows.map fun r => ⟨r.title, r.institution, r.datasetID, none⟩⟩

/-! ### Concrete sample inputs, used to instantiate the theorems below -/

/-- A freshly constructed fetcher for the default server. -/
def exFetcher : GliderDataFetcher :=
  { server := "https://gliders.ioos.us/erddap",
    vars := ["latitude", "longitude", "pressure", "salinity", "temperature", "time"],
    dataset_id := none, constraints := none, datasets := none, query_url := none }

/-- Sample bounds (the spec's end-to-end scenario values). -/
def exBounds : Bounds :=
  { min_lat := "30", max_lat := "35", min_lon := "-75", max_lon := "-70",
    min_time := "2020-01-01", max_time := "2020-02-01" }

/-- A sample catalog-search response holding one near-real-time and one
delayed-mode dataset. -/
def exSearchRows : List SearchRow :=
  [⟨"Glider A", "WHOI", "whoi_406-20160902T1700"⟩,
   ⟨"Glider A", "WHOI", "whoi_406-20160902T1700_delayed"⟩]

/-- erddapy's info-page URL builder for the default server. -/
def exInfoUrl (did : String) : String :=
  "https://gliders.ioos.us/erddap/info/" ++ did ++ "/index.html"

/-- A sample one-row catalog, as a successful `query` would store it. -/
def exCatalog : Catalog :=
  ⟨[⟨"Glider A", "WHOI", "whoi_406-20160902T1700",
     some (exInfoUrl "whoi_406-20160902T1700")⟩]⟩

/-- A sample two-row catalog over two dataset ids. -/
def exCatalog2 : Catalog :=
  ⟨[⟨"Glider A", "WHOI", "ga", some (exInfoUrl "ga")⟩,
    ⟨"Glider B", "SIO", "gb", some (exInfoUrl "gb")⟩]⟩

/-- A sample per-dataset fetch oracle: dataset `"ga"` has two observation
rows, every other dataset one. -/
def exTable (did : String) : DataFrame :=
  if did = "ga" then
    { indexName := "time (UTC)",
      columns := ["Temperature (Celsius)", "Salinity"],
      rows := [["10.1", "35.0"], ["10.2", "35.1"]] }
  else
    { indexName := "time (UTC)",
      columns := ["Temperature (Celsius)"],
      rows := [["11.5"]] }

/-- A sample download-URL oracle, query string included. -/
def exDl (did : String) : String :=
  "https://gliders.ioos.us/erddap/tabledap/" ++ did ++ ".csvp?time%2Ctemperature"

/-- A small standalone table for the normaliser theorems. -/
def exDf : DataFrame :=
  { indexName := "obs",
    columns := ["Temperature (Celsius)", "sal (psu)"],
    rows := [["10.1", "35.0"], ["10.2", "35.1"]] }

/-! ### Helper lemmas -/

/-- `Char.ofNatAux` really holds the code point it was given. -/
theorem toNat_ofNatAux (n : Nat) (h : n.isValidChar) :
    (Char.ofNatAux n h).toNat = n := rfl

/-- Lower-casing a character twice is the same as once: the shifted range
97–122 lies outside the upper-case range 65–90. -/
theorem lowerChar_idem (c : Char) : lowerChar (lowerChar c) = lowerChar c := by
  by_cases h : 65 ≤ c.toNat ∧ c.toNat ≤ 90
  · have h1 : lowerChar c = Char.ofNatAux (c.toNat + 32) (lowerValid h.2) := by
      unfold lowerChar; rw [dif_pos h]
    rw [h1]
    unfold lowerChar
    rw [dif_neg]
    rw [toNat_ofNatAux]
    omega
  · have h1 : lowerChar c = c := by unfold lowerChar; rw [dif_neg h]
    rw [h1, h1]

/-- `str.lower` is idempotent. -/
theorem lowerStr_idem (s : String) : lowerStr (lowerStr s) = lowerStr s := by
  show String.mk ((s.data.map lowerChar).map lowerChar) = String.mk (s.data.map lowerChar)
  rw [List.map_map]
  exact congrArg String.mk (List.map_congr_left fun a _ => lowerChar_idem a)

/-- A label's image under the rename table either is the label itself or
appears among the table's replacement values. -/
theorem renameCol_mem_or_eq (m : List (String × String)) (c : String) :
    renameCol m c = c ∨ ∃ k, (k, renameCol m c) ∈ m := by
  induction m with
  | nil => exact Or.inl rfl
  | cons p rest ih =>
    obtain ⟨k, v⟩ := p
    by_cases hc : c = k
    · right
      refine ⟨k, ?_⟩
      simp [renameCol, hc]
    · have hr : renameCol ((k, v) :: rest) c = renameCol rest c := by
        simp [renameCol, hc]
      rw [hr]
      rcases ih with h | ⟨k', hk'⟩
      · exact Or.inl h
      · exact Or.inr ⟨k', List.mem_cons_of_mem _ hk'⟩

/-- When every replacement value of the rename table is already lower-case
and is itself left alone by the table, lower-case-then-rename is
idempotent on every label. -/
theorem renameLower_idem (m : List (String × String))
    (hm : ∀ p ∈ m, lowerStr p.2 = p.2 ∧ renameCol m p.2 = p.2) (c : String) :
    renameCol m (lowerStr (renameCol m (lowerStr c))) = renameCol m (lowerStr c) := by
  rcases renameCol_mem_or_eq m (lowerStr c) with h | ⟨k, hk⟩
  · rw [h, lowerStr_idem]
    exact h
  · obtain ⟨hl, hr⟩ := hm _ hk
    rw [hl]
    exact hr

/-- The modelled rename table satisfies the stability condition of
`renameLower_idem`. -/
theorem server_parameter_rename_stable :
    ∀ p ∈ server_parameter_rename,
      lowerStr p.2 = p.2 ∧ renameCol server_parameter_rename p.2 = p.2 := by
  decide

/-! ### C1, C3, C7, C10: control-flow and error claims -/

/-- C1: a second `query()` call on a fetcher that already discovered a
catalog does not return the memoized catalog — the guard
`if not self.datasets:` evaluates a pandas dataframe as a boolean, which
raises, whatever the bounds or the state of the network. -/
theorem query_after_catalog_raises (st : GliderDataFetcher) (cat : Catalog)
    (b : Bounds) (delayed : Bool) (surl : String)
    (res : Except HttpError (List SearchRow)) (iu : String → String)
    (h : st.datasets = some cat) :
    query st b delayed surl res iu = Except.error PyError.truthValueAmbiguous := by
  unfold query
  simp [pyNotDatasets, h]

/-- Witness for C1 at a fetcher holding a one-row catalog. -/
theorem query_after_catalog_raises_witness :
    query { exFetcher with datasets := some exCatalog } exBounds false "u"
        (Except.ok exSearchRows) exInfoUrl =
      Except.error PyError.truthValueAmbiguous :=
  query_after_catalog_raises _ exCatalog _ _ _ _ _ rfl

/-- C3: `to_pandas()` with neither a dataset id nor a catalog fails at
once with the configuration `ValueError`; the result is the same for
every fetch and URL oracle, so no network access happens. -/
theorem to_pandas_unconfigured_error (st : GliderDataFetcher)
    (fetch : String → DataFrame) (dl : String → String)
    (h1 : st.dataset_id = none) (h2 : st.datasets = none) :
    to_pandas st fetch dl =
      Except.error (PyError.valueError
        "Must provide a None or `query` terms to download data.") := by
  unfold to_pandas
  rw [h1, h2]
  simp [pyTruthyOptStr, pyReprOptStr]

/-- Witness for C3 on a freshly constructed fetcher. -/
theorem to_pandas_unconfigured_error_witness :
    to_pandas exFetcher exTable exDl =
      Except.error (PyError.valueError
        "Must provide a None or `query` terms to download data.") :=
  to_pandas_unconfigured_error _ _ _ rfl rfl

/-- C7: an HTTP failure of the catalog search is re-raised exactly once as
the higher-level error carrying the constraint mapping built from this
call's bounds; the translation is the same for every failure. -/
theorem query_http_error_translation (st : GliderDataFetcher) (b : Bounds)
    (delayed : Bool) (surl : String) (e : HttpError) (iu : String → String)
    (h : st.datasets = none) :
    query st b delayed surl (Except.error e) iu =
      Except.error (PyError.noDatasetsFound (mkConstraints b)) := by
  unfold query
  simp [pyNotDatasets, h]

/-- Witness for C7 at a concrete HTTP failure. -/
theorem query_http_error_translation_witness :
    query exFetcher exBounds false "u"
        (Except.error (HttpError.httpGetFailed "boom")) exInfoUrl =
      Except.error (PyError.noDatasetsFound (mkConstraints exBounds)) :=
  query_http_error_translation _ _ _ _ _ _ rfl

/-- C10: on a fetcher with no dataset id and a discovered catalog of zero
ids, `to_pandas()` raises pandas' empty-concatenation `ValueError` instead
of returning an empty table, for every fetch and URL oracle. -/
theorem to_pandas_empty_catalog_raises (st : GliderDataFetcher)
    (fetch : String → DataFrame) (dl : String → String)
    (h1 : st.dataset_id = none) (h2 : st.datasets = some ⟨[]⟩) :
    to_pandas st fetch dl =
      Except.error (PyError.valueError "No objects to concatenate") := by
  unfold to_pandas
  rw [h1, h2]
  simp [pyTruthyOptStr, Catalog.ids, fetchLoop, pdConcat]

/-- Witness for C10 at a fetcher holding an empty catalog. -/
theorem to_pandas_empty_catalog_raises_witness :
    to_pandas { exFetcher with datasets := some ⟨[]⟩ } exTable exDl =
      Except.error (PyError.valueError "No objects to concatenate") :=
  to_pandas_empty_catalog_raises _ _ _ rfl rfl

/-! ### C2: delayed-mode filtering -/

/-- C2: a successful catalog search with `delayed=false` yields a catalog
none of whose ids ends in `"delayed"`, with an info-page URL attached to
every surviving row, and the surviving ids are exactly the non-delayed
response ids in order; with `delayed=true` every response id is
retained. -/
theorem query_delayed_filter (st : GliderDataFetcher) (b : Bounds) (surl : String)
    (rows : List SearchRow) (iu : String → String) (h : st.datasets = none) :
    (∃ st' cat, query st b false surl (Except.ok rows) iu = Except.ok (st', cat) ∧
      cat.rows.map (fun e => e.datasetID) =
        (rows.filter fun r => !(pyEndsWith r.datasetID "delayed")).map
          (fun r => r.datasetID) ∧
      ∀ e ∈ cat.rows, pyEndsWith e.datasetID "delayed" = false ∧
        e.info_url = some (iu e.datasetID)) ∧
    (∃ st' cat, query st b true surl (Except.ok rows) iu = Except.ok (st', cat) ∧
      cat.rows.map (fun e => e.datasetID) = rows.map fun r => r.datasetID) := by
  have hq1 : query st b false surl (Except.ok rows) iu =
      Except.ok
        ({ st with
            constraints := some (mkConstraints b)
            query_url := some surl
            datasets := some (filteredCatalog rows iu) },
          filteredCatalog rows iu) := by
    unfold query filteredCatalog
    simp [pyNotDatasets, h]
  have hq2 : query st b true surl (Except.ok rows) iu =
      Except.ok
        ({ st with
            constraints := some (mkConstraints b)
            query_url := some surl
            datasets := some (retainedCatalog rows) },
          retainedCatalog rows) := by
    unfold query retainedCatalog
    simp [pyNotDatasets, h]
  constructor
  · refine ⟨_, _, hq1, ?_, ?_⟩
    · show (filteredCatalog rows iu).rows.map _ = _
      unfold filteredCatalog
      rw [List.map_map]
      rfl
    · intro e he
      unfold filteredCatalog at he
      rw [List.mem_map] at he
      obtain ⟨r, hr, rfl⟩ := he
      rw [List.mem_filter] at hr
      refine ⟨?_, rfl⟩
      simpa using hr.2
  · refine ⟨_, _, hq2, ?_⟩
    show (retainedCatalog rows).rows.map _ = _
    unfold retainedCatalog
    rw [List.map_map]
    rfl

/-- Witness for C2: the `delayed=false` half at the sample response (one
plain and one delayed-mode id). -/
theorem query_delayed_filter_witness :
    ∃ st' cat, query exFetcher exBounds false "surl" (Except.ok exSearchRows) exInfoUrl
        = Except.ok (st', cat) ∧
      cat.rows.map (fun e => e.datasetID) =
        (exSearchRows.filter fun r => !(pyEndsWith r.datasetID "delayed")).map
          (fun r => r.datasetID) ∧
      ∀ e ∈ cat.rows, pyEndsWith e.datasetID "delayed" = false ∧
        e.info_url = some (exInfoUrl e.datasetID) :=
  (query_delayed_filter exFetcher exBounds "surl" exSearchRows exInfoUrl rfl).1

/-! ### C6: `DatasetList.get_ids` -/

/-- C6: against the supported server, and with the `allDatasets` sentinel
occurring once in the server's id column (as the reserved catalog entry
guarantees), `get_ids` returns that column with the sentinel removed, so
`"allDatasets"` is never in the result; against any other server it
raises the unsupported-operation `ValueError` whatever the oracle
returned. -/
theorem get_ids_spec (d : DatasetList) (table : List String) :
    (d.server = "https://gliders.ioos.us/erddap" →
      table.count "allDatasets" = 1 →
      d.get_ids table =
        Except.ok ({ d with dataset_ids := some (table.erase "allDatasets") },
          table.erase "allDatasets") ∧
      "allDatasets" ∉ table.erase "allDatasets") ∧
    (d.server ≠ "https://gliders.ioos.us/erddap" →
      d.get_ids table = Except.error (PyError.valueError
        ("The " ++ d.server ++ " does not supported this operation."))) := by
  constructor
  · intro hs hc
    have hmem : "allDatasets" ∈ table := by
      refine List.count_pos_iff.mp ?_
      omega
    constructor
    · unfold DatasetList.get_ids
      rw [if_pos hs, if_pos hmem]
    · have hce := List.count_erase_self "allDatasets" table
      rw [hc] at hce
      exact List.count_eq_zero.mp hce
  · intro hs
    unfold DatasetList.get_ids
    rw [if_neg hs]

/-- Witness for C6: the supported-server half on a three-entry id column
containing the sentinel once. -/
theorem get_ids_spec_witness :
    DatasetList.get_ids ⟨"https://gliders.ioos.us/erddap", none⟩
        ["allDatasets", "ga", "gb"] =
      Except.ok (⟨"https://gliders.ioos.us/erddap",
          some (["allDatasets", "ga", "gb"].erase "allDatasets")⟩,
        ["allDatasets", "ga", "gb"].erase "allDatasets") ∧
      "allDatasets" ∉ ["allDatasets", "ga", "gb"].erase "allDatasets" :=
  (get_ids_spec ⟨"https://gliders.ioos.us/erddap", none⟩
    ["allDatasets", "ga", "gb"]).1 rfl (by decide)

/-! ### Cell-level lemmas about `setColumn` -/

/-- `colValues` on a non-empty frame splits into the head cell (when the
head label matches) and the tail's values. -/
theorem colValues_cons (c : String) (cols : List String) (x : String)
    (r : List String) (name : String) :
    colValues (c :: cols) name (x :: r) =
      (if c = name then [x] else []) ++ colValues cols name r := by
  unfold colValues
  rw [List.zip_cons_cons, List.filter_cons]
  by_cases hc : c = name
  · simp [hc]
  · simp [hc]

/-- After an overwriting `df[name] = v`, every cell of a row under a
column labelled `name` holds `v`. -/
theorem setCells_all (name v : String) :
    ∀ (cols r : List String),
      ∀ x ∈ colValues cols name
          ((cols.zip r).map fun p => if p.1 = name then v else p.2), x = v
  | [], r => by simp [colValues]
  | c :: cols, [] => by simp [colValues]
  | c :: cols, y :: r => by
    simp only [List.zip_cons_cons, List.map_cons]
    rw [colValues_cons]
    intro x hx
    rw [List.mem_append] at hx
    rcases hx with hx | hx
    · by_cases hc : c = name <;> simp [hc] at hx
      exact hx
    · exact setCells_all name v cols r x hx

/-- After an overwriting `df[name] = v` on a well-formed row, the value
`v` does appear under the label `name`. -/
theorem setCells_mem (name v : String) :
    ∀ (cols r : List String), r.length = cols.length → name ∈ cols →
      v ∈ colValues cols name
        ((cols.zip r).map fun p => if p.1 = name then v else p.2)
  | [], _, _, hmem => by simp at hmem
  | _ :: _, [], hlen, _ => by simp at hlen
  | c :: cols, y :: r, hlen, hmem => by
    simp only [List.zip_cons_cons, List.map_cons]
    rw [colValues_cons]
    by_cases hc : c = name
    · simp [hc]
    · rw [List.mem_cons] at hmem
      rcases hmem with h | h
      · exact absurd h.symm hc
      · simp only [hc, if_false, List.nil_append]
        exact setCells_mem name v cols r (by simpa using hlen) h

/-- After an appending `df[name] = v` (no column was labelled `name`),
the cells under `name` are exactly the one appended `v`. -/
theorem appendCells (name v : String) (cols r : List String)
    (hlen : r.length = cols.length) (hni : name ∉ cols) :
    colValues (cols ++ [name]) name (r ++ [v]) = [v] := by
  unfold colValues
  rw [List.zip_append hlen.symm, List.filter_append]
  have h1 : (cols.zip r).filter (fun p => decide (p.1 = name)) = [] := by
    rw [List.filter_eq_nil_iff]
    intro p hp
    have hmem := (List.of_mem_zip hp).1
    simp only [decide_eq_true_eq]
    intro hpn
    exact hni (hpn ▸ hmem)
  rw [h1]
  simp

/-- Overwriting a well-formed row with the value its `name` cells already
hold leaves the row unchanged. -/
theorem setRow_id (name v : String) :
    ∀ (cols r : List String), r.length = cols.length →
      (∀ x ∈ colValues cols name r, x = v) →
      (cols.zip r).map (fun p => if p.1 = name then v else p.2) = r
  | [], [], _, _ => by simp
  | [], _ :: _, hlen, _ => by simp at hlen
  | _ :: _, [], hlen, _ => by simp at hlen
  | c :: cols, y :: r, hlen, hcells => by
    simp only [List.zip_cons_cons, List.map_cons]
    have htail : ∀ x ∈ colValues cols name r, x = v := by
      intro x hx
      apply hcells
      rw [colValues_cons]
      exact List.mem_append_right _ hx
    rw [setRow_id name v cols r (by simpa using hlen) htail]
    by_cases hc : c = name
    · have hy : y = v := by
        apply hcells
        rw [colValues_cons]
        simp [hc]
      simp [hc, hy]
    · simp [hc]

/-- `df[name] = v` keeps a frame well-formed. -/
theorem setColumn_wf (df : DataFrame) (name v : String) (h : df.wf) :
    (setColumn df name v).wf := by
  unfold setColumn
  by_cases hm : name ∈ df.columns
  · rw [if_pos hm]
    intro r hr
    simp only [List.mem_map] at hr
    obtain ⟨r0, hr0, rfl⟩ := hr
    simp [List.length_zip, h r0 hr0]
  · rw [if_neg hm]
    intro r hr
    simp only [List.mem_map] at hr
    obtain ⟨r0, hr0, rfl⟩ := hr
    simp [h r0 hr0]

/-- Overwriting a column with a value all its cells already hold is the
identity on well-formed frames. -/
theorem setColumn_stable (d : DataFrame) (name v : String)
    (hm : name ∈ d.columns) (hwf : d.wf)
    (hcells : ∀ r ∈ d.rows, ∀ x ∈ colValues d.columns name r, x = v) :
    setColumn d name v = d := by
  unfold setColumn
  rw [if_pos hm]
  have hrows : d.rows.map
      (fun r => (d.columns.zip r).map fun p => if p.1 = name then v else p.2) = d.rows := by
    calc d.rows.map (fun r => (d.columns.zip r).map fun p => if p.1 = name then v else p.2)
        = d.rows.map id :=
          List.map_congr_left fun r hr => setRow_id name v d.columns r (hwf r hr) (hcells r hr)
      _ = d.rows := List.map_id _
  rw [hrows]

/-! ### Structure of `standardise_df`'s output -/

/-- The index of a standardised frame is always labelled `"time"`. -/
theorem standardise_indexName (m : List (String × String)) (df : DataFrame)
    (u : String) : (standardise_df m df u).indexName = "time" := by
  show (setColumn ⟨"time", (df.columns.map lowerStr).map (renameCol m), df.rows⟩
    "dataset_url" u).indexName = "time"
  unfold setColumn
  split <;> rfl

/-- The columns of a standardised frame: the lower-cased-then-renamed
input labels, with a `dataset_url` column appended when none resulted. -/
theorem standardise_columns_eq (m : List (String × String)) (df : DataFrame)
    (u : String) :
    (standardise_df m df u).columns =
      if "dataset_url" ∈ normCols m df.columns then normCols m df.columns
      else normCols m df.columns ++ ["dataset_url"] := by
  have hc : (df.columns.map lowerStr).map (renameCol m) = normCols m df.columns := by
    rw [List.map_map]; rfl
  show (setColumn ⟨"time", (df.columns.map lowerStr).map (renameCol m), df.rows⟩
    "dataset_url" u).columns = _
  rw [hc]
  unfold setColumn
  by_cases hm : "dataset_url" ∈ normCols m df.columns
  · rw [if_pos hm, if_pos hm]
  · rw [if_neg hm, if_neg hm]

/-- The rows of a standardised frame: each input row either gets its
`dataset_url` cells overwritten or the URL appended. -/
theorem standardise_rows_eq (m : List (String × String)) (df : DataFrame)
    (u : String) :
    (standardise_df m df u).rows =
      if "dataset_url" ∈ normCols m df.columns then
        df.rows.map fun r => ((normCols m df.columns).zip r).map
          fun p => if p.1 = "dataset_url" then u else p.2
      else df.rows.map fun r => r ++ [u] := by
  have hc : (df.columns.map lowerStr).map (renameCol m) = normCols m df.columns := by
    rw [List.map_map]; rfl
  show (setColumn ⟨"time", (df.columns.map lowerStr).map (renameCol m), df.rows⟩
    "dataset_url" u).rows = _
  rw [hc]
  unfold setColumn
  by_cases hm : "dataset_url" ∈ normCols m df.columns
  · rw [if_pos hm, if_pos hm]
  · rw [if_neg hm, if_neg hm]

/-- A `dataset_url` column is always present after standardising. -/
theorem standardise_du_mem (m : List (String × String)) (df : DataFrame)
    (u : String) : "dataset_url" ∈ (standardise_df m df u).columns := by
  rw [standardise_columns_eq]
  by_cases hm : "dataset_url" ∈ normCols m df.columns
  · rw [if_pos hm]; exact hm
  · rw [if_neg hm]; exact List.mem_append_right _ (List.mem_singleton.mpr rfl)

/-- Standardising keeps a frame well-formed. -/
theorem standardise_wf (m : List (String × String)) (df : DataFrame)
    (u : String) (hwf : df.wf) : (standardise_df m df u).wf := by
  show (setColumn ⟨"time", (df.columns.map lowerStr).map (renameCol m), df.rows⟩
    "dataset_url" u).wf
  apply setColumn_wf
  intro r hr
  simp [hwf r hr]

/-- Every `dataset_url` cell of a standardised well-formed frame holds
the URL, and at least one such cell exists in every row. -/
theorem standardise_url_cells (m : List (String × String)) (df : DataFrame)
    (u : String) (hwf : df.wf) :
    ∀ r ∈ (standardise_df m df u).rows,
      u ∈ colValues (standardise_df m df u).columns "dataset_url" r ∧
      ∀ x ∈ colValues (standardise_df m df u).columns "dataset_url" r, x = u := by
  intro r hr
  rw [standardise_rows_eq] at hr
  rw [standardise_columns_eq]
  by_cases hm : "dataset_url" ∈ normCols m df.columns
  · rw [if_pos hm] at hr ⊢
    rw [List.mem_map] at hr
    obtain ⟨r0, hr0, rfl⟩ := hr
    have hlen : r0.length = (normCols m df.columns).length := by
      unfold normCols
      simp [hwf r0 hr0]
    exact ⟨setCells_mem "dataset_url" u _ r0 hlen hm,
      setCells_all "dataset_url" u _ r0⟩
  · rw [if_neg hm] at hr ⊢
    rw [List.mem_map] at hr
    obtain ⟨r0, hr0, rfl⟩ := hr
    have hlen : r0.length = (normCols m df.columns).length := by
      unfold normCols
      simp [hwf r0 hr0]
    rw [appendCells "dataset_url" u _ r0 hlen hm]
    exact ⟨List.mem_singleton.mpr rfl, fun x hx => List.mem_singleton.mp hx⟩

/-! ### C5: normaliser output shape -/

/-- C5: on every well-formed table, rename table and URL, the
standardised columns are exactly the input labels lower-cased then
renamed (plus the `dataset_url` column when none resulted), a
`dataset_url` column is present, and in every row the cells under
`dataset_url` all hold the one source URL. -/
theorem standardise_columns_and_url (m : List (String × String))
    (df : DataFrame) (u : String) (hwf : df.wf) :
    (standardise_df m df u).columns =
      (if "dataset_url" ∈ normCols m df.columns then normCols m df.columns
       else normCols m df.columns ++ ["dataset_url"]) ∧
    "dataset_url" ∈ (standardise_df m df u).columns ∧
    ∀ r ∈ (standardise_df m df u).rows,
      u ∈ colValues (standardise_df m df u).columns "dataset_url" r ∧
      ∀ x ∈ colValues (standardise_df m df u).columns "dataset_url" r, x = u :=
  ⟨standardise_columns_eq m df u, standardise_du_mem m df u,
    standardise_url_cells m df u hwf⟩

/-- Witness for C5 at the sample table. -/
theorem standardise_columns_and_url_witness :
    (standardise_df server_parameter_rename exDf "https://example.org/d.csv").columns =
      (if "dataset_url" ∈ normCols server_parameter_rename exDf.columns then
        normCols server_parameter_rename exDf.columns
       else normCols server_parameter_rename exDf.columns ++ ["dataset_url"]) ∧
    "dataset_url" ∈ (standardise_df server_parameter_rename exDf
      "https://example.org/d.csv").columns ∧
    ∀ r ∈ (standardise_df server_parameter_rename exDf "https://example.org/d.csv").rows,
      "https://example.org/d.csv" ∈ colValues
        (standardise_df server_parameter_rename exDf "https://example.org/d.csv").columns
        "dataset_url" r ∧
      ∀ x ∈ colValues
        (standardise_df server_parameter_rename exDf "https://example.org/d.csv").columns
        "dataset_url" r, x = "https://example.org/d.csv" :=
  standardise_columns_and_url server_parameter_rename exDf
    "https://example.org/d.csv" (by decide)

/-! ### C8: idempotence -/

/-- Every column label of a standardised frame is a fixed point of
lower-case-then-rename, for the modelled rename table. -/
theorem standardise_cols_stable (df : DataFrame) (u : String) :
    ∀ c ∈ (standardise_df server_parameter_rename df u).columns,
      renameCol server_parameter_rename (lowerStr c) = c := by
  intro c hc
  rw [standardise_columns_eq] at hc
  have hdu : renameCol server_parameter_rename (lowerStr "dataset_url") =
      "dataset_url" := by decide
  by_cases hm : "dataset_url" ∈ normCols server_parameter_rename df.columns
  · rw [if_pos hm] at hc
    unfold normCols at hc
    rw [List.mem_map] at hc
    obtain ⟨c0, _, rfl⟩ := hc
    exact renameLower_idem server_parameter_rename server_parameter_rename_stable c0
  · rw [if_neg hm] at hc
    rw [List.mem_append] at hc
    rcases hc with hc | hc
    · unfold normCols at hc
      rw [List.mem_map] at hc
      obtain ⟨c0, _, rfl⟩ := hc
      exact renameLower_idem server_parameter_rename server_parameter_rename_stable c0
    · rw [List.mem_singleton] at hc
      subst hc
      exact hdu

/-- C8: applying the normaliser twice with the same URL equals applying
it once — labels already lower-cased and renamed are untouched and the
`dataset_url` column is overwritten with the same value. -/
theorem standardise_df_idem (df : DataFrame) (u : String) (hwf : df.wf) :
    standardise_df server_parameter_rename
        (standardise_df server_parameter_rename df u) u =
      standardise_df server_parameter_rename df u := by
  have hidx := standardise_indexName server_parameter_rename df u
  have hcolsfix : ((standardise_df server_parameter_rename df u).columns.map
      lowerStr).map (renameCol server_parameter_rename) =
      (standardise_df server_parameter_rename df u).columns := by
    rw [List.map_map]
    calc (standardise_df server_parameter_rename df u).columns.map
          (renameCol server_parameter_rename ∘ lowerStr)
        = (standardise_df server_parameter_rename df u).columns.map id :=
          List.map_congr_left fun c hc => standardise_cols_stable df u c hc
      _ = _ := List.map_id _
  show setColumn ⟨"time",
      ((standardise_df server_parameter_rename df u).columns.map lowerStr).map
        (renameCol server_parameter_rename),
      (standardise_df server_parameter_rename df u).rows⟩ "dataset_url" u =
    standardise_df server_parameter_rename df u
  rw [hcolsfix, ← hidx]
  show setColumn (standardise_df server_parameter_rename df u) "dataset_url" u =
    standardise_df server_parameter_rename df u
  exact setColumn_stable _ _ _
    (standardise_du_mem server_parameter_rename df u)
    (standardise_wf server_parameter_rename df u hwf)
    (fun r hr => (standardise_url_cells server_parameter_rename df u hwf r hr).2)

/-- Witness for C8 at the sample table. -/
theorem standardise_df_idem_witness :
    standardise_df server_parameter_rename
        (standardise_df server_parameter_rename exDf "https://example.org/d.csv")
        "https://example.org/d.csv" =
      standardise_df server_parameter_rename exDf "https://example.org/d.csv" :=
  standardise_df_idem exDf "https://example.org/d.csv" (by decide)

/-! ### C9: the normaliser mutates its argument -/

/-- C9 counterexample: the claim that the input table is left unchanged
fails — after the call on the sample table, the caller's dataframe no
longer holds its original contents. -/
theorem standardise_mutates_cex :
    standardise_df_argAfter server_parameter_rename exDf
      "https://example.org/d.csv" ≠ exDf := by
  decide

/-- C9 (amended): the normaliser computes its output by mutating the
argument in place — every step of the source is an in-place pandas
operation and the function returns the same object — so after the call
the argument holds exactly the returned (standardised) table. -/
theorem standardise_inplace_aliasing (m : List (String × String))
    (df : DataFrame) (u : String) :
    standardise_df_argAfter m df u = standardise_df m df u := rfl

/-! ### C4: multi-dataset concatenation -/

/-- The tables the multi-dataset loop collects: the standardised fetch of
each id, in catalog order, after the accumulator. -/
theorem fetchLoop_snd (fetch : String → DataFrame) (dl : String → String) :
    ∀ (ids : List String) (st : GliderDataFetcher) (acc : List DataFrame),
      (fetchLoop fetch dl st ids acc).2 =
        acc ++ ids.map fun did =>
          standardise_df server_parameter_rename (fetch did) (stripQuery (dl did))
  | [], st, acc => by simp [fetchLoop]
  | did :: rest, st, acc => by
    show (fetchLoop fetch dl { st with dataset_id := some did } rest
      (acc ++ [standardise_df server_parameter_rename (fetch did)
        (stripQuery (dl did))])).2 = _
    rw [fetchLoop_snd fetch dl rest _ _]
    simp

/-- `to_pandas` on a fetcher with no dataset id and a present catalog is
the concatenation of the loop's collected tables. -/
theorem to_pandas_catalog_branch (st : GliderDataFetcher) (cat : Catalog)
    (fetch : String → DataFrame) (dl : String → String)
    (h1 : st.dataset_id = none) (h2 : st.datasets = some cat) :
    to_pandas st fetch dl =
      match pdConcat ((fetchLoop fetch dl st cat.ids []).2) with
      | Except.ok big => Except.ok ((fetchLoop fetch dl st cat.ids []).1, big)
      | Except.error e => Except.error e := by
  unfold to_pandas
  rw [h1, h2]
  rfl

/-- C4: with no dataset id set and a non-empty discovered catalog,
`to_pandas` succeeds and its rows are the per-dataset standardised
tables' rows stacked in catalog order (each block aligned to the result's
column union, which preserves each block's row count and order), so the
row count is the sum of the per-dataset row counts. -/
theorem to_pandas_concat_rows (st : GliderDataFetcher) (cat : Catalog)
    (fetch : String → DataFrame) (dl : String → String)
    (h1 : st.dataset_id = none) (h2 : st.datasets = some cat)
    (h3 : cat.rows ≠ []) :
    ∃ st' big, to_pandas st fetch dl = Except.ok (st', big) ∧
      big.rows =
        ((cat.ids.map fun did =>
            standardise_df server_parameter_rename (fetch did) (stripQuery (dl did))).map
          fun t => t.rows.map fun r => alignRow t.columns r big.columns).flatten ∧
      big.rows.length =
        ((cat.ids.map fun did =>
            standardise_df server_parameter_rename (fetch did) (stripQuery (dl did))).map
          fun t => t.rows.length).sum := by
  have hloop := fetchLoop_snd fetch dl cat.ids st []
  rw [List.nil_append] at hloop
  have htabs : (cat.ids.map fun did =>
      standardise_df server_parameter_rename (fetch did) (stripQuery (dl did))) ≠ [] := by
    have hids : cat.ids ≠ [] := by
      unfold Catalog.ids
      simpa using h3
    simpa using hids
  obtain ⟨t, ts, hts⟩ := List.exists_cons_of_ne_nil htabs
  rw [to_pandas_catalog_branch st cat fetch dl h1 h2, hloop, hts]
  refine ⟨_, _, rfl, ?_, ?_⟩
  · rfl
  · show (((t :: ts).map fun tt => tt.rows.map fun r =>
        alignRow tt.columns r (unionCols ((t :: ts).map fun x => x.columns))).flatten).length = _
    rw [List.length_flatten, List.map_map]
    exact congrArg List.sum (List.map_congr_left fun a _ => by simp [alignRow])

/-- Witness for C4 on a two-dataset catalog whose tables have two rows
and one row. -/
theorem to_pandas_concat_rows_witness :
    ∃ st' big, to_pandas { exFetcher with datasets := some exCatalog2 } exTable exDl =
        Except.ok (st', big) ∧
      big.rows =
        ((exCatalog2.ids.map fun did =>
            standardise_df server_parameter_rename (exTable did)
              (stripQuery (exDl did))).map
          fun t => t.rows.map fun r => alignRow t.columns r big.columns).flatten ∧
      big.rows.length =
        ((exCatalog2.ids.map fun did =>
            standardise_df server_parameter_rename (exTable did)
              (stripQuery (exDl did))).map
          fun t => t.rows.length).sum :=
  to_pandas_concat_rows _ exCatalog2 exTable exDl rfl rfl (by decide)

end Gliderpy
